import Mathlib

/-!
# Verification of the redflash host orchestration layer

Shallow embedding of `src/redflash/redflash.cpp` (host-side orchestration of
an OptiX raymarching/path-tracing renderer).  Floating-point scalars are
modelled as exact rationals; external collaborators (sutil, GLUT, the optix
math library's `normalize`, `Matrix4x4::inverse`, the arcball) are passed in
as opaque function parameters, mirroring that they are library code outside
this repository.  Time is modelled as an explicit rational clock advanced by a
per-iteration duration sequence.
-/

namespace Redflash

/-- A 3-component vector (models CUDA `float3` with exact rationals). -/
structure Vec3 where
  x : ℚ
  y : ℚ
  z : ℚ
  deriving DecidableEq, Repr

def Vec3.add (a b : Vec3) : Vec3 := ⟨a.x + b.x, a.y + b.y, a.z + b.z⟩

def Vec3.sub (a b : Vec3) : Vec3 := ⟨a.x - b.x, a.y - b.y, a.z - b.z⟩

def Vec3.neg (a : Vec3) : Vec3 := ⟨-a.x, -a.y, -a.z⟩

def Vec3.smul (c : ℚ) (a : Vec3) : Vec3 := ⟨c * a.x, c * a.y, c * a.z⟩

/-- Componentwise division, as `optix::operator/` on `float3`
(`world_scale / unit_scale` in `createRaymrachingObject`).  Division by a zero
component is the rational stand-in for the unguarded IEEE division. -/
def Vec3.div (a b : Vec3) : Vec3 := ⟨a.x / b.x, a.y / b.y, a.z / b.z⟩

/-- `optix::Matrix4x4`, row-major 4×4 matrix over the rational scalars. -/
abbrev M4 : Type := Matrix (Fin 4) (Fin 4) ℚ

/-- `Matrix4x4::fromBasis(u, v, w, c)`: rotation columns `u v w`,
translation column `c`, last row `(0 0 0 1)`. -/
def fromBasis (u v w c : Vec3) : M4 :=
  !![u.x, v.x, w.x, c.x;
     u.y, v.y, w.y, c.y;
     u.z, v.z, w.z, c.z;
     0, 0, 0, 1]

/-- Apply a `Matrix4x4` to a point: `make_float3(m * make_float4(p, 1.0f))`. -/
def xformPoint (m : M4) (p : Vec3) : Vec3 :=
  let r := m.mulVec ![p.x, p.y, p.z, 1]
  ⟨r 0, r 1, r 2⟩

/-- Apply a `Matrix4x4` to a direction: `m * float4(v, 0)`, keeping `xyz`. -/
def xformVec (m : M4) (v : Vec3) : Vec3 :=
  let r := m.mulVec ![v.x, v.y, v.z, 0]
  ⟨r 0, r 1, r 2⟩

/-!
## Batch (file-output) render loop — `main`, lines 827–850

The loop body samples `now`, computes `used_time = now - launch_time` and
`delta_time = now - last_time` (the previous iteration's duration), and
launches only when `used_time + delta_time * 1.1 ≤ time_limit`.  We model the
clock by a duration sequence `d : ℕ → ℚ` (duration of the `i`-th iteration)
and thread `t` (elapsed since program start) and `prev` (previous iteration's
duration) explicitly.  Fuel bounds the recursion; `none` means the fuel ran
out before the loop exited.
-/

/-- Observable outcome of the batch code path after the `for` loop:
the `(elapsed, predicted)` pair observed at each launch in order, the loop
counter `i` at exit (the sample count reported on a deadline stop), whether
the exit was the deadline `break`, and how many image-export calls
(`sutil::displayBufferPNG`) follow the loop. -/
structure BatchResult where
  launchLog : List (ℚ × ℚ)
  reported : ℕ
  deadlineStop : Bool
  exports : ℕ
  deriving DecidableEq, Repr

/-- Prepend a launch observation to a `BatchResult`'s log. -/
def consLaunch (e p : ℚ) (r : BatchResult) : BatchResult :=
  { r with launchLog := (e, p) :: r.launchLog }

/-- The batch `for` loop of `main`:
`for (int i = 0; i < sample || use_time_limit; ++i) { ...
  if (used_time + delta_time * 1.1 > time_limit) break;
  context->launch(...); }`
followed by one `displayBufferPNG` export on every exit path. -/
def batchLoopAux (sample : ℕ) (useTL : Bool) (limit : ℚ) (d : ℕ → ℚ) :
    ℕ → ℕ → ℚ → ℚ → Option BatchResult
  | 0, _, _, _ => none
  | fuel + 1, i, t, prev =>
    if i < sample ∨ useTL = true then
      if limit < t + prev * (11 / 10) then
        some ⟨[], i, true, 1⟩
      else
        Option.map (consLaunch t prev)
          (batchLoopAux sample useTL limit d fuel (i + 1) (t + d i) (d i))
    else
      some ⟨[], i, false, 1⟩

/-- Entry into the batch loop: `i = 0`, elapsed time `t0` already spent on
setup (context/scene construction before the loop), and `prev = 0` because
`last_time` is sampled immediately before the first iteration. -/
def batchRun (sample : ℕ) (useTL : Bool) (limit : ℚ) (d : ℕ → ℚ)
    (t0 : ℚ) (fuel : ℕ) : Option BatchResult :=
  batchLoopAux sample useTL limit d fuel 0 t0 0

/-!
## Camera / mouse state — globals of `redflash.cpp`

`calculateCameraVariables` (sutil), `optix::normalize`, `Matrix4x4::inverse`
and `arcball.rotate` are external library collaborators and are taken as
opaque function parameters.
-/

/-- GLUT mouse buttons (`GLUT_LEFT_BUTTON`, `GLUT_MIDDLE_BUTTON`,
`GLUT_RIGHT_BUTTON`). -/
inductive MouseButton
  | left
  | middle
  | right
  deriving DecidableEq, Repr

/-- The mutable globals touched by the camera controller and the input
callbacks: resolution, camera pose, pending arcball rotation, the dirty flag
`camera_changed`, the progressive counter `frame_number`, the cached `frame`
/ `frame_inv` matrices, and the mouse state. -/
structure AppState where
  width : ℕ
  height : ℕ
  eye : Vec3
  lookat : Vec3
  up : Vec3
  rotate : M4
  changed : Bool
  frame_number : ℕ
  frame : M4
  frame_inv : M4
  mouse_button : MouseButton
  mouse_prev : ℤ × ℤ

/-- The values `updateCamera` publishes to the GPU context:
`frame_number` (the pre-increment value), `eye`, and the raw `U V W` basis
from the second `calculateCameraVariables` call. -/
structure Published where
  frame_number : ℕ
  eye : Vec3
  U : Vec3
  V : Vec3
  W : Vec3

/-- Type of the opaque `sutil::calculateCameraVariables` collaborator:
from resolution (for the aspect ratio) and `eye`/`lookat`/`up` it yields the
raw `(camera_u, camera_v, camera_w)` triple. -/
abbrev CalcCam : Type := ℕ → ℕ → Vec3 → Vec3 → Vec3 → Vec3 × Vec3 × Vec3

/-- `updateCamera()` (lines 469–508): recompute the basis, build
`trans = frame * camera_rotate * camera_rotate * frame_inv`, move `eye` and
`lookat` through `trans`, recompute the basis, reset `camera_rotate` to the
identity, reset `frame_number` to 1 if `camera_changed` was set, clear the
flag, and publish `frame_number++`, `eye`, `U`, `V`, `W`. -/
def updateCamera (ccv : CalcCam) (normF : Vec3 → Vec3) (minv : M4 → M4)
    (s : AppState) : AppState × Published :=
  let uvw := ccv s.width s.height s.eye s.lookat s.up
  let fr : M4 :=
    fromBasis (normF uvw.1) (normF uvw.2.1) (normF (Vec3.neg uvw.2.2)) s.lookat
  let fr_inv := minv fr
  let trans := fr * s.rotate * s.rotate * fr_inv
  let eye2 := xformPoint trans s.eye
  let lookat2 := xformPoint trans s.lookat
  let uvw2 := ccv s.width s.height eye2 lookat2 s.up
  let fn := if s.changed then 1 else s.frame_number
  ({ s with
      eye := eye2, lookat := lookat2, rotate := (1 : M4), changed := false,
      frame_number := fn + 1, frame := fr, frame_inv := fr_inv },
   ⟨fn, eye2, uvw2.1, uvw2.2.1, uvw2.2.2⟩)

/-- The transform as the spec words it: "frame · R · R · frame⁻¹, where R is
the pending rotation and frame is the basis built from the current
eye/lookat/up".  Written separately from `updateCamera` to compare the code
against the spec's formula. -/
def specCamTransform (ccv : CalcCam) (normF : Vec3 → Vec3) (minv : M4 → M4)
    (s : AppState) : M4 :=
  let uvw := ccv s.width s.height s.eye s.lookat s.up
  let fr : M4 :=
    fromBasis (normF uvw.1) (normF uvw.2.1) (normF (Vec3.neg uvw.2.2)) s.lookat
  fr * s.rotate * s.rotate * minv fr

/-- `glutMousePress` (lines 613–624): on `GLUT_DOWN` record the button and
the cursor position; on release do nothing (the code's `else` branch is
empty). -/
def glutMousePress (btn : MouseButton) (down : Bool) (x y : ℤ)
    (s : AppState) : AppState :=
  if down then { s with mouse_button := btn, mouse_prev := (x, y) } else s

/-- `glutMouseMotion` (lines 627–669): dispatch on the recorded
`mouse_button` — right = dolly, left = arcball rotate (`arb` is the opaque
`arcball.rotate` collaborator, called as `arcball.rotate(b, a)`), middle =
pan along the cached `frame`; then always update `mouse_prev_pos`. -/
def glutMouseMotion (arb : ℚ × ℚ → ℚ × ℚ → M4) (x y : ℤ)
    (s : AppState) : AppState :=
  let s2 :=
    if s.mouse_button = MouseButton.right then
      let dx : ℚ := ((x - s.mouse_prev.1 : ℤ) : ℚ) / (s.width : ℚ)
      let dy : ℚ := ((y - s.mouse_prev.2 : ℤ) : ℚ) / (s.height : ℚ)
      let dmax := if |dx| > |dy| then dx else dy
      let scale := min dmax (9 / 10)
      { s with eye := Vec3.add s.eye (Vec3.smul scale (Vec3.sub s.lookat s.eye)),
               changed := true }
    else if s.mouse_button = MouseButton.left then
      let a : ℚ × ℚ :=
        ((s.mouse_prev.1 : ℚ) / (s.width : ℚ), (s.mouse_prev.2 : ℚ) / (s.height : ℚ))
      let b : ℚ × ℚ := ((x : ℚ) / (s.width : ℚ), (y : ℚ) / (s.height : ℚ))
      { s with rotate := arb b a, changed := true }
    else if s.mouse_button = MouseButton.middle then
      let dx : ℚ := ((x - s.mouse_prev.1 : ℤ) : ℚ) / (s.width : ℚ)
      let dy : ℚ := ((y - s.mouse_prev.2 : ℤ) : ℚ) / (s.height : ℚ)
      let off := Vec3.smul 200 (xformVec s.frame ⟨-dx, dy, 0⟩)
      { s with eye := Vec3.add s.eye off, lookat := Vec3.add s.lookat off,
               changed := true }
    else s
  { s2 with mouse_prev := (x, y) }

/-- A raw pointer event as delivered by GLUT. -/
inductive Event
  | press : MouseButton → ℤ → ℤ → Event
  | release : MouseButton → ℤ → ℤ → Event
  | motion : ℤ → ℤ → Event

/-- Dispatch a single pointer event to the corresponding callback. -/
def applyEvent (arb : ℚ × ℚ → ℚ × ℚ → M4) : Event → AppState → AppState
  | Event.press b x y, s => glutMousePress b true x y s
  | Event.release b x y, s => glutMousePress b false x y s
  | Event.motion x y, s => glutMouseMotion arb x y s

/-- Apply a sequence of pointer events in order. -/
def applyEvents (arb : ℚ × ℚ → ℚ × ℚ → M4) (es : List Event)
    (s : AppState) : AppState :=
  es.foldl (fun st e => applyEvent arb e st) s

/-!
## Light registry — `updateLightParameters` / `createGeometryLight`
-/

/-- Modelled from the spec: the light type tag `{sphere, quad}` of
`LightParameter` — the struct itself is declared in `redflash.h`, which is
not part of the sources here; its fields are those read and written by
`redflash.cpp`. -/
inductive LightType
  | sphere
  | quad
  deriving DecidableEq, Repr

/-- Modelled from the spec: the `LightParameter` struct of `redflash.h`
(type, position, emission, radius, computed area, orientation vectors
u/v/normal), exactly the fields `redflash.cpp` copies into the GPU buffer. -/
structure LightParameter where
  position : Vec3
  emission : Vec3
  radius : ℚ
  area : ℚ
  u : Vec3
  v : Vec3
  normal : Vec3
  lightType : LightType
  deriving DecidableEq, Repr

/-- The observable fields of the geometry instance built for one light:
`createSphereObject(position, radius)` plus `emission_color` and the
`lightMaterialId` written from the running index. -/
structure LightGI where
  center : Vec3
  radius : ℚ
  emission_color : Vec3
  lightMaterialId : ℕ
  deriving DecidableEq, Repr

/-- What `createGeometryLight` publishes: the GPU buffer contents (written by
`updateLightParameters`, field by field in list order), the buffer size
passed to `setSize`, `sysNumberOfLights`, and the per-light geometry
instances. -/
structure LightSetup where
  buffer : List LightParameter
  bufferSize : ℕ
  sysNumberOfLights : ℕ
  gis : List LightGI
  deriving DecidableEq, Repr

/-- The per-light mutation inside the `createGeometryLight` loop:
`light->area = 4.0f * M_PIf * light->radius * light->radius;`
`light->normal = optix::normalize(light->normal);`
`pif` is the machine constant `M_PIf`; `normF` the opaque `optix::normalize`. -/
def finalizeLight (pif : ℚ) (normF : Vec3 → Vec3) (l : LightParameter) :
    LightParameter :=
  { l with area := 4 * pif * l.radius * l.radius, normal := normF l.normal }

/-- Build the geometry instance for the light at running index `idx`. -/
def lightGIof (p : ℕ × LightParameter) : LightGI :=
  ⟨p.2.position, p.2.radius, p.2.emission, p.1⟩

/-- `createGeometryLight` (lines 373–428), generalized over the pending
registration list: finalize every light in order with a running index,
allocate the buffer with `setSize(lightParameters.size())`, rewrite it fully
via `updateLightParameters`, and publish `sysNumberOfLights`. -/
def createGeometryLightFrom (pif : ℚ) (normF : Vec3 → Vec3)
    (pending : List LightParameter) : LightSetup :=
  let finalized := pending.map (finalizeLight pif normF)
  ⟨finalized, finalized.length, finalized.length, finalized.enum.map lightGIof⟩

/-- The two sphere lights `createGeometryLight` actually registers.  `init`
stands for the default-constructed (uninitialized) `LightParameter` the code
starts from; only the explicitly assigned fields are overridden. -/
def redflashLights (init : LightParameter) : List LightParameter :=
  [{ init with lightType := LightType.sphere, position := ⟨50, 310, 50⟩,
               radius := 10, emission := ⟨1, 1, 1⟩ },
   { init with lightType := LightType.sphere,
               position := ⟨1 / 100, 166787 / 1000, 190⟩,
               radius := 2, emission := ⟨10, 1 / 100, 1 / 100⟩ }]

/-- `createGeometryLight` as the code runs it, on its two hard-coded lights. -/
def createGeometryLight (pif : ℚ) (normF : Vec3 → Vec3)
    (init : LightParameter) : LightSetup :=
  createGeometryLightFrom pif normF (redflashLights init)

/-!
## Resize — `glutResize` (lines 672–687)
-/

/-- The state `glutResize` touches: the `width`/`height` globals, the output
buffer's dimensions, and the `camera_changed` flag. -/
structure ResizeState where
  width : ℕ
  height : ℕ
  bufW : ℕ
  bufH : ℕ
  changed : Bool
  deriving DecidableEq, Repr

/-- The external `sutil::ensureMinimumSize` helper, which clamps a requested
resolution to a minimum of 1×1. -/
def ensureMinimumSize (w h : ℕ) : ℕ × ℕ := (max w 1, max h 1)

/-- `glutResize(w, h)`: early-return when the size is unchanged; otherwise
set `camera_changed`, store the clamped size, and resize the output buffer
to it. -/
def glutResize (s : ResizeState) (w h : ℕ) : ResizeState :=
  if w = s.width ∧ h = s.height then s
  else
    let wh := ensureMinimumSize w h
    ⟨wh.1, wh.2, wh.1, wh.2, true⟩

/-!
## Asset path resolution — `resolveDataPath` (lines 135–158)
-/

/-- The candidate locations, in priority order: working directory, its
`data/` subdirectory, and the installed-assets `data/` directory
(`sutil::samplesDir() + "/data/"`). -/
def dataCandidates (cwd base filename : String) : List String :=
  [cwd ++ "/" ++ filename, cwd ++ "/data/" ++ filename,
   base ++ "/data/" ++ filename]

/-- The candidate iteration of `resolveDataPath`: return the first path at
which `fs::exists` holds, else throw. -/
def resolveGo (filename : String) (ex : String → Bool) :
    List String → Except String String
  | [] => Except.error ("Couldn\x27t open source file " ++ filename)
  | p :: rest => if ex p then Except.ok p else resolveGo filename ex rest

/-- `resolveDataPath(filename)`, with the filesystem (`fs::exists`) abstracted
as `ex`, the working directory as `cwd` and `sutil::samplesDir()` as `base`. -/
def resolveDataPath (ex : String → Bool) (cwd base filename : String) :
    Except String String :=
  resolveGo filename ex (dataCandidates cwd base filename)

/-!
## Procedural-volume geometry — `createRaymrachingObject` (lines 197–213)
-/

/-- The parameters `createRaymrachingObject` writes on the geometry node. -/
structure RaymarchGI where
  center : Vec3
  local_scale : Vec3
  aabb_min : Vec3
  aabb_max : Vec3
  deriving DecidableEq, Repr

/-- `createRaymrachingObject(center, world_scale, unit_scale)`.  The
`Except` result type makes the spec's validation-failure claim statable; the
source has no failure path, so the result is always `ok`, with
`local_scale = world_scale / unit_scale` computed unchecked (a zero
`unit_scale` component divides by zero: IEEE Inf/NaN in the code, `0` in the
rational model). -/
def createRaymrachingObject (center world_scale unit_scale : Vec3) :
    Except String RaymarchGI :=
  Except.ok ⟨center, Vec3.div world_scale unit_scale,
             Vec3.sub center world_scale, Vec3.add center world_scale⟩

/-!
## Context teardown — `destroyContext` (lines 166–173)
-/

/-- The global `context` handle (non-null?) together with an instrumentation
counter of how many times the underlying `context->destroy()` ran. -/
structure CtxState where
  context : Bool
  destroys : ℕ
  deriving DecidableEq, Repr

/-- `destroyContext()`: `if (context) { context->destroy(); context = 0; }`. -/
def destroyContext (s : CtxState) : CtxState :=
  if s.context then ⟨false, s.destroys + 1⟩ else s

/-!
## Concrete instantiations of the opaque collaborators, used by witnesses
-/

/-- A concrete stand-in for `calculateCameraVariables` in witnesses. -/
def ccvC : CalcCam := fun _ _ _ _ _ => (⟨1, 0, 0⟩, ⟨0, 1, 0⟩, ⟨0, 0, 1⟩)

/-- A concrete stand-in for `optix::normalize` in witnesses. -/
def normC : Vec3 → Vec3 := fun v => v

/-- A concrete stand-in for `Matrix4x4::inverse` in witnesses. -/
def minvC : M4 → M4 := fun _ => (1 : M4)

/-- A concrete stand-in for `arcball.rotate` in witnesses. -/
def arbC : ℚ × ℚ → ℚ × ℚ → M4 := fun _ _ => (1 : M4)

/-- A concrete starting `AppState` for witnesses and counterexamples:
the defaults of `redflash.cpp` (480×270, the "look at center" pose, identity
pending rotation, `camera_changed = true`, `frame_number = 1`). -/
def s0 : AppState :=
  { width := 480, height := 270,
    eye := ⟨1391 / 100, 166787 / 1000, 413⟩,
    lookat := ⟨-659 / 100, 16994 / 100, -911 / 100⟩,
    up := ⟨0, 1, 0⟩,
    rotate := (1 : M4), changed := true, frame_number := 1,
    frame := (1 : M4), frame_inv := (1 : M4),
    mouse_button := MouseButton.middle, mouse_prev := (0, 0) }

/-- The concrete `ResizeState` of a fresh run: the default 480×270
resolution, buffer matching, dirty flag clear. -/
def rs0 : ResizeState := ⟨480, 270, 480, 270, false⟩

/-- The result of the batch loop on sample = 5, no `-t` option, default
3600 s limit, every iteration taking 1 s (scenario B). -/
def rB : BatchResult := ⟨[(0, 0), (1, 1), (2, 1), (3, 1), (4, 1)], 5, false, 1⟩

/-!
## Theorems
-/

/-- After two consecutive calls, `destroyContext` has converged. -/
lemma destroyContext_fixed (u : CtxState) :
    destroyContext (destroyContext u) = destroyContext u := by
  by_cases h : u.context
  · simp [destroyContext, h]
  · simp [destroyContext, h]

/-- No pointer event touches the `frame_number` counter. -/
lemma applyEvent_frame_number (arb : ℚ × ℚ → ℚ × ℚ → M4) (e : Event)
    (s : AppState) : (applyEvent arb e s).frame_number = s.frame_number := by
  cases e with
  | press b x y => rfl
  | release b x y => rfl
  | motion x y => cases hb : s.mouse_button <;> simp [applyEvent, glutMouseMotion, hb]

/-- No sequence of pointer events touches the `frame_number` counter. -/
lemma applyEvents_frame_number (arb : ℚ × ℚ → ℚ × ℚ → M4) (es : List Event)
    (s : AppState) : (applyEvents arb es s).frame_number = s.frame_number := by
  induction es generalizing s with
  | nil => rfl
  | cons e es ih =>
    show (applyEvents arb es (applyEvent arb e s)).frame_number = s.frame_number
    rw [ih, applyEvent_frame_number]

/-- C6: `resolveDataPath` searches, in order, the working directory, its
`data/` subdirectory, and the installed-assets data directory, returns the
first candidate at which the file exists, and raises the NotFound error when
the file exists at none of them — so it never returns a later candidate when
an earlier one exists. -/
theorem resolveDataPath_ordered_search (ex : String → Bool)
    (cwd base filename : String) :
    resolveDataPath ex cwd base filename =
      if ex (cwd ++ "/" ++ filename) then Except.ok (cwd ++ "/" ++ filename)
      else if ex (cwd ++ "/data/" ++ filename) then
        Except.ok (cwd ++ "/data/" ++ filename)
      else if ex (base ++ "/data/" ++ filename) then
        Except.ok (base ++ "/data/" ++ filename)
      else Except.error ("Couldn\x27t open source file " ++ filename) := rfl

/-- C7 counterexample: with a zero `unit_scale`, `createRaymrachingObject`
does NOT fail with a configuration error — it returns a geometry instance,
with the unchecked division collapsing `local_scale` (to `0` in the rational
model; to a non-finite value under IEEE floats). -/
theorem createRaymrachingObject_zero_scale_cex :
    createRaymrachingObject ⟨0, 0, 0⟩ ⟨300, 300, 300⟩ ⟨0, 0, 0⟩ =
      Except.ok ⟨⟨0, 0, 0⟩, ⟨0, 0, 0⟩, ⟨-300, -300, -300⟩, ⟨300, 300, 300⟩⟩ := by
  norm_num [createRaymrachingObject, Vec3.div, Vec3.sub, Vec3.add]

/-- C7 amended: `createRaymrachingObject` performs no validation at all: for
every input (including zero or degenerate `unit_scale`) it returns a geometry
instance whose `local_scale` is the unchecked componentwise division
`world_scale / unit_scale` and whose AABB is `center ± world_scale`. -/
theorem createRaymrachingObject_never_fails (c ws us : Vec3) :
    ∃ gi, createRaymrachingObject c ws us = Except.ok gi ∧
      gi.local_scale = Vec3.div ws us ∧
      gi.aabb_min = Vec3.sub c ws ∧ gi.aabb_max = Vec3.add c ws :=
  ⟨_, rfl, rfl, rfl, rfl⟩

/-- C8: `destroyContext` is idempotent: for every `n ≥ 1` consecutive calls,
the result equals that of a single call (every call after the first is a
no-op), the handle is null afterwards, and the underlying destroy ran at
most once more than before. -/
theorem destroyContext_idempotent (s : CtxState) (n : ℕ) (hn : 1 ≤ n) :
    destroyContext^[n] s = destroyContext s ∧
    (destroyContext^[n] s).context = false ∧
    (destroyContext^[n] s).destroys ≤ s.destroys + 1 := by
  have hiter : ∀ m : ℕ, destroyContext^[m + 1] s = destroyContext s := by
    intro m
    induction m with
    | zero => rfl
    | succ k ih =>
      rw [Function.iterate_succ_apply', ih, destroyContext_fixed]
  obtain ⟨m, rfl⟩ : ∃ m, n = m + 1 := ⟨n - 1, by omega⟩
  refine ⟨hiter m, ?_, ?_⟩
  · rw [hiter m]
    by_cases h : s.context <;> simp [destroyContext, h]
  · rw [hiter m]
    by_cases h : s.context <;> simp [destroyContext, h]

/-- C8 witness: two consecutive teardown calls on a live context. -/
theorem destroyContext_idempotent_witness :
    (1 ≤ 2) ∧
    destroyContext^[2] ⟨true, 0⟩ = destroyContext ⟨true, 0⟩ ∧
    (destroyContext^[2] (⟨true, 0⟩ : CtxState)).context = false ∧
    (destroyContext^[2] (⟨true, 0⟩ : CtxState)).destroys ≤ 0 + 1 := by
  have h := destroyContext_idempotent ⟨true, 0⟩ 2 (by decide)
  exact ⟨by decide, h.1, h.2.1, h.2.2⟩

/-- C5 counterexample: a resize request equal to the current size (the
default 480×270) takes the early-return path and does NOT set the camera
dirty flag. -/
theorem glutResize_same_size_cex :
    glutResize rs0 480 270 = rs0 ∧ (glutResize rs0 480 270).changed = false := by
  decide

/-- C5 amended: for every requested size `(w, h)` that differs from the
current size and respects the enforced minimum of 1, after `glutResize` the
buffer dimensions equal exactly `(w, h)` and the camera dirty flag is set;
a request equal to the current size is ignored entirely. -/
theorem glutResize_spec (s : ResizeState) (w h : ℕ) :
    (¬(w = s.width ∧ h = s.height) → 1 ≤ w → 1 ≤ h →
      glutResize s w h = ⟨w, h, w, h, true⟩) ∧
    glutResize s s.width s.height = s := by
  constructor
  · intro hne hw hh
    simp only [glutResize, if_neg hne, ensureMinimumSize]
    rw [Nat.max_eq_left hw, Nat.max_eq_left hh]
  · simp [glutResize]

/-- C5 witness: resizing the default 480×270 state to 256×128. -/
theorem glutResize_spec_witness :
    ¬((256 : ℕ) = rs0.width ∧ (128 : ℕ) = rs0.height) ∧
    (1 : ℕ) ≤ 256 ∧ (1 : ℕ) ≤ 128 ∧
    glutResize rs0 256 128 = ⟨256, 128, 256, 128, true⟩ :=
  ⟨by decide, by decide, by decide,
   (glutResize_spec rs0 256 128).1 (by decide) (by decide) (by decide)⟩

/-- C10 counterexample: a motion event delivered after a left-button release
(and before any further press) does NOT leave the camera state unchanged —
the release handler is empty, so the motion is processed as if the left
button were still held, setting the dirty flag. -/
theorem motion_after_release_changes_camera_cex :
    ({ s0 with changed := false } : AppState).changed = false ∧
    (applyEvents arbC
      [Event.press MouseButton.left 0 0, Event.release MouseButton.left 0 0]
      { s0 with changed := false }).changed = false ∧
    (applyEvents arbC
      [Event.press MouseButton.left 0 0, Event.release MouseButton.left 0 0,
       Event.motion 50 50] { s0 with changed := false }).changed = true := by
  refine ⟨rfl, rfl, rfl⟩

/-- C10 amended: a button-release event leaves the whole state unchanged (the
handler's release branch is empty, so the last pressed button stays
recorded), and hence a pointer move delivered after a release is handled
exactly as if that button were still pressed. -/
theorem buttonUp_noop_motion_uses_last_button (b : MouseButton) (x y x2 y2 : ℤ)
    (s : AppState) (arb : ℚ × ℚ → ℚ × ℚ → M4) :
    glutMousePress b false x y s = s ∧
    glutMouseMotion arb x2 y2 (glutMousePress b false x y s) =
      glutMouseMotion arb x2 y2 s :=
  ⟨rfl, rfl⟩

/-- C9: each resolve builds the world-space transform
`frame · R · R · frame⁻¹` (the pending rotation applied exactly twice, with
`frame` the basis built from the current eye/lookat/up), applies it to both
`eye` and `lookat`, and resets the pending rotation to the identity. -/
theorem updateCamera_applies_rotation_twice (ccv : CalcCam)
    (normF : Vec3 → Vec3) (minv : M4 → M4) (s : AppState) :
    (updateCamera ccv normF minv s).1.eye =
      xformPoint (specCamTransform ccv normF minv s) s.eye ∧
    (updateCamera ccv normF minv s).1.lookat =
      xformPoint (specCamTransform ccv normF minv s) s.lookat ∧
    (updateCamera ccv normF minv s).1.rotate = (1 : M4) :=
  ⟨rfl, rfl, rfl⟩

/-- C4: for every sequence of camera interactions, a resolve in which the
dirty flag was set publishes frame/sample counter 1 and clears the flag; a
resolve in which the flag was (still) clear publishes exactly one more than
the previous resolve did. -/
theorem updateCamera_counter_spec (ccv : CalcCam) (normF : Vec3 → Vec3)
    (minv : M4 → M4) (arb : ℚ × ℚ → ℚ × ℚ → M4) (s : AppState)
    (es : List Event) :
    (updateCamera ccv normF minv s).1.changed = false ∧
    (s.changed = true → (updateCamera ccv normF minv s).2.frame_number = 1) ∧
    (s.changed = false →
      (updateCamera ccv normF minv s).2.frame_number = s.frame_number) ∧
    ((applyEvents arb es (updateCamera ccv normF minv s).1).changed = false →
      (updateCamera ccv normF minv
          (applyEvents arb es (updateCamera ccv normF minv s).1)).2.frame_number =
        (updateCamera ccv normF minv s).2.frame_number + 1) := by
  have hsnd : ∀ u : AppState, (updateCamera ccv normF minv u).2.frame_number =
      if u.changed then 1 else u.frame_number := fun u => rfl
  have hfst : ∀ u : AppState, (updateCamera ccv normF minv u).1.frame_number =
      (if u.changed then 1 else u.frame_number) + 1 := fun u => rfl
  refine ⟨rfl, ?_, ?_, ?_⟩
  · intro h; rw [hsnd, h]; rfl
  · intro h; rw [hsnd, h]; rfl
  · intro h2
    rw [hsnd, h2]
    simp only [Bool.false_eq_true, if_false]
    rw [applyEvents_frame_number, hfst, hsnd]

/-- C4 witness: resolving the default dirty state publishes counter 1, and a
second resolve with no intervening interaction publishes 2. -/
theorem updateCamera_counter_witness :
    s0.changed = true ∧
    (updateCamera ccvC normC minvC s0).2.frame_number = 1 ∧
    (applyEvents arbC [] (updateCamera ccvC normC minvC s0).1).changed = false ∧
    (updateCamera ccvC normC minvC
        (applyEvents arbC [] (updateCamera ccvC normC minvC s0).1)).2.frame_number =
      (updateCamera ccvC normC minvC s0).2.frame_number + 1 := by
  have h := updateCamera_counter_spec ccvC normC minvC arbC s0 []
  exact ⟨rfl, h.2.1 rfl, rfl, h.2.2.2 rfl⟩

/-- C1: the batch loop never launches a frame whose elapsed time plus 1.1 ×
the previous iteration's duration exceeds the time limit, and on exit it
reports exactly the number of launches completed. -/
theorem batch_never_launches_past_deadline (sample : ℕ) (useTL : Bool)
    (limit : ℚ) (d : ℕ → ℚ) (fuel : ℕ) :
    ∀ (i : ℕ) (t prev : ℚ) (r : BatchResult),
      batchLoopAux sample useTL limit d fuel i t prev = some r →
      (∀ e p, (e, p) ∈ r.launchLog → e + p * (11 / 10) ≤ limit) ∧
      r.reported = i + r.launchLog.length := by
  induction fuel with
  | zero => intro i t prev r h; simp [batchLoopAux] at h
  | succ n ih =>
    intro i t prev r h
    rw [batchLoopAux] at h
    by_cases hc : i < sample ∨ useTL = true
    · rw [if_pos hc] at h
      by_cases hd : limit < t + prev * (11 / 10)
      · rw [if_pos hd] at h
        injection h with h
        subst h
        refine ⟨?_, by simp⟩
        intro e p hm
        simp at hm
      · rw [if_neg hd] at h
        cases hrec : batchLoopAux sample useTL limit d n (i + 1) (t + d i) (d i) with
        | none => rw [hrec] at h; simp at h
        | some r2 =>
          rw [hrec, Option.map_some'] at h
          injection h with h
          subst h
          obtain ⟨ih1, ih2⟩ := ih (i + 1) (t + d i) (d i) r2 hrec
          constructor
          · intro e p hm
            simp only [consLaunch, List.mem_cons] at hm
            rcases hm with hm | hm
            · rw [Prod.mk.injEq] at hm
              obtain ⟨he, hp⟩ := hm
              subst he; subst hp
              exact not_lt.mp hd
            · exact ih1 e p hm
          · simp only [consLaunch, List.length_cons]
            omega
    · rw [if_neg hc] at h
      injection h with h
      subst h
      refine ⟨?_, by simp⟩
      intro e p hm
      simp at hm

/-- C1 witness: with a 10 s deadline and a 9 s first frame, the single launch
that occurred satisfied the admission check (scenario C: the second frame is
refused since 9 + 9 × 1.1 > 10), and 1 sample is reported. -/
theorem batch_deadline_safe_witness :
    batchLoopAux 100 false 10 (fun _ => 9) 3 0 0 0 =
      some ⟨[(0, 0)], 1, true, 1⟩ ∧
    ((0 : ℚ) + 0 * (11 / 10) ≤ 10) ∧
    (⟨[(0, 0)], 1, true, 1⟩ : BatchResult).reported =
      0 + (⟨[(0, 0)], 1, true, 1⟩ : BatchResult).launchLog.length := by
  have hrun : batchLoopAux 100 false 10 (fun _ => 9) 3 0 0 0 =
      some ⟨[(0, 0)], 1, true, 1⟩ := by
    norm_num [batchLoopAux, consLaunch]
  have h := batch_never_launches_past_deadline 100 false 10 (fun _ => 9) 3 0 0 0
      ⟨[(0, 0)], 1, true, 1⟩ hrun
  exact ⟨hrun, h.1 0 0 (by simp), h.2⟩

/-- C2 counterexample: batch mode with sample = 2 and NO deadline option
still enforces the default 3600 s `time_limit`: with 4000 s frames the loop
performs only 1 launch, not 2. -/
theorem batch_default_time_limit_cex :
    batchRun 2 false 3600 (fun _ => 4000) 0 3 =
      some ⟨[(0, 0)], 1, true, 1⟩ ∧ (1 : ℕ) ≠ 2 := by
  refine ⟨?_, by decide⟩
  norm_num [batchRun, batchLoopAux, consLaunch]

/-- C2 amended: with no deadline option given, the loop performs exactly the
configured N launches provided the default one-hour admission check never
trips (when it does trip, fewer launches occur); in either case exactly one
image-export call follows the loop. -/
theorem batch_no_deadline_runs_exactly_N (sample : ℕ) (limit : ℚ) (d : ℕ → ℚ)
    (fuel : ℕ) :
    ∀ (i : ℕ) (t prev : ℚ) (r : BatchResult), i ≤ sample → sample - i < fuel →
      batchLoopAux sample false limit d fuel i t prev = some r →
      r.exports = 1 ∧
      (r.deadlineStop = false →
        r.reported = sample ∧ r.launchLog.length = sample - i) := by
  induction fuel with
  | zero => intro i t prev r hi hfuel h; omega
  | succ n ih =>
    intro i t prev r hi hfuel h
    rw [batchLoopAux] at h
    by_cases hlt : i < sample
    · rw [if_pos (Or.inl hlt)] at h
      by_cases hd : limit < t + prev * (11 / 10)
      · rw [if_pos hd] at h
        injection h with h
        subst h
        exact ⟨rfl, fun hds => by cases hds⟩
      · rw [if_neg hd] at h
        cases hrec : batchLoopAux sample false limit d n (i + 1) (t + d i) (d i) with
        | none => rw [hrec] at h; simp at h
        | some r2 =>
          rw [hrec, Option.map_some'] at h
          injection h with h
          subst h
          obtain ⟨ihe, ihd⟩ := ih (i + 1) (t + d i) (d i) r2 (by omega) (by omega) hrec
          refine ⟨ihe, ?_⟩
          intro hds
          obtain ⟨hrep, hlen⟩ := ihd hds
          refine ⟨hrep, ?_⟩
          simp only [consLaunch, List.length_cons]
          omega
    · have hc : ¬(i < sample ∨ false = true) := by simp [hlt]
      rw [if_neg hc] at h
      injection h with h
      subst h
      refine ⟨rfl, fun _ => ⟨?_, ?_⟩⟩
      · show i = sample
        omega
      · show ([] : List (ℚ × ℚ)).length = sample - i
        simp
        omega

/-- C2 witness: scenario B — sample = 5, no deadline option, 1 s frames:
exactly 5 launches, no deadline stop, one export. -/
theorem batch_no_deadline_witness :
    batchLoopAux 5 false 3600 (fun _ => 1) 6 0 0 0 = some rB ∧
    (0 ≤ 5 ∧ 5 - 0 < 6) ∧
    rB.exports = 1 ∧ rB.reported = 5 ∧ rB.launchLog.length = 5 - 0 := by
  have hrun : batchLoopAux 5 false 3600 (fun _ => 1) 6 0 0 0 = some rB := by
    norm_num [batchLoopAux, consLaunch, rB]
  have h := batch_no_deadline_runs_exactly_N 5 3600 (fun _ => 1) 6 0 0 0 rB
      (by omega) (by omega) hrun
  obtain ⟨hrep, hlen⟩ := h.2 rfl
  exact ⟨hrun, by omega, h.1, hrep, hlen⟩

/-- C3: after `createGeometryLight` finalizes registration, the buffer
length and `sysNumberOfLights` equal the number of registered lights, the
light registered at position `i` is written at buffer index `i` with its
area recomputed as `4 π r²` and its normal normalized, and the geometry
instance built for it carries `lightMaterialId = i`; on the two hard-coded
sphere lights the buffer has size 2 and the first light's area is
`4 π 10²`. -/
theorem createGeometryLight_buffer_spec (pif : ℚ) (normF : Vec3 → Vec3)
    (pending : List LightParameter) (i : ℕ) (init : LightParameter) :
    (createGeometryLightFrom pif normF pending).bufferSize = pending.length ∧
    (createGeometryLightFrom pif normF pending).sysNumberOfLights =
      pending.length ∧
    (createGeometryLightFrom pif normF pending).buffer.length =
      pending.length ∧
    (createGeometryLightFrom pif normF pending).buffer[i]? =
      (pending[i]?).map (fun l =>
        { l with area := 4 * pif * l.radius * l.radius,
                 normal := normF l.normal }) ∧
    (createGeometryLightFrom pif normF pending).gis[i]? =
      (pending[i]?).map (fun l =>
        (⟨l.position, l.radius, l.emission, i⟩ : LightGI)) ∧
    (createGeometryLight pif normF init).bufferSize = 2 ∧
    ((createGeometryLight pif normF init).buffer[0]?).map LightParameter.area =
      some (4 * pif * 10 * 10) := by
  refine ⟨by simp [createGeometryLightFrom], by simp [createGeometryLightFrom],
    by simp [createGeometryLightFrom], ?_, ?_, rfl, rfl⟩
  · cases hp : pending[i]? with
    | none => simp [createGeometryLightFrom, List.getElem?_map, hp]
    | some l => simp [createGeometryLightFrom, List.getElem?_map, hp, finalizeLight]
  · cases hp : pending[i]? with
    | none =>
      simp [createGeometryLightFrom, List.getElem?_map, List.getElem?_enum, hp]
    | some l =>
      simp [createGeometryLightFrom, List.getElem?_map, List.getElem?_enum, hp,
        lightGIof, finalizeLight]

end Redflash
